import Mathlib

/-
Verification of the credential-lifecycle manager and dual-strategy
line-item retriever of src/backend/app.py (Flask backend).

The Python code is shallowly embedded: JSON values become the inductive
`JsonVal`; Python exceptions (AttributeError on `.get` of a non-dict,
KeyError on missing `[k]`, TypeError on iterating a non-iterable, the
ValueError of `response.json()` on an unparsable body) become `Except PyErr`;
the global `token_storage` dict becomes an explicit `Storage` value threaded
through the functions; time (`datetime.now()`) becomes an `Int` parameter
`now`, and `expires_at` is stored as an absolute `Int`.  The network is an
explicit environment: each HTTP endpoint the code contacts is a field of
`World` (or a separate `HttpResponse` parameter), so theorems can quantify
over every combination of upstream statuses and bodies.
-/

/-- A parsed JSON value, as produced by `response.json()`.  Objects are
association lists in insertion order with distinct keys. -/
inductive JsonVal : Type
  | null : JsonVal
  | str (s : String) : JsonVal
  | num (n : Int) : JsonVal
  | bool (b : Bool) : JsonVal
  | arr (xs : List JsonVal) : JsonVal
  | obj (fields : List (String × JsonVal)) : JsonVal

/-- The Python exceptions the embedded code can raise. -/
inductive PyErr : Type
  | attributeError : PyErr
  | keyError : PyErr
  | typeError : PyErr
  | valueError : PyErr
deriving DecidableEq, Repr

/-- Python `d.get(k, default)`: defined on dicts only; on any non-dict
receiver the attribute lookup of `.get` raises AttributeError. -/
def pyGet : JsonVal → String → JsonVal → Except PyErr JsonVal
  | .obj fs, k, d => .ok ((List.lookup k fs).getD d)
  | _, _, _ => .error .attributeError

/-- Python `d[k]` for a string key: KeyError when the key is absent from a
dict, TypeError when the receiver is not a dict. -/
def pyIndex : JsonVal → String → Except PyErr JsonVal
  | .obj fs, k =>
    match List.lookup k fs with
    | some v => .ok v
    | none => .error .keyError
  | _, _ => .error .typeError

/-- Does the character list start with the given needle. -/
def startsWithL : List Char → List Char → Bool
  | [], _ => true
  | _ :: _, [] => false
  | a :: as, b :: bs => a == b && startsWithL as bs

/-- Substring test on character lists (Python `needle in haystack`). -/
def hasSubL (n : List Char) : List Char → Bool
  | [] => startsWithL n []
  | b :: bs => startsWithL n (b :: bs) || hasSubL n bs

/-- Python `k in x`: key membership on dicts, element membership on lists,
substring on strings, TypeError otherwise. -/
def pyIn (k : String) : JsonVal → Except PyErr Bool
  | .obj fs => .ok (List.lookup k fs).isSome
  | .arr xs =>
    .ok (xs.any (fun x => match x with | .str s => s == k | _ => false))
  | .str s => .ok (hasSubL k.toList s.toList)
  | _ => .error .typeError

/-- Python `for x in j`: lists yield elements, strings yield one-character
strings, dicts yield their keys; other values raise TypeError. -/
def pyIter : JsonVal → Except PyErr (List JsonVal)
  | .arr xs => .ok xs
  | .str s => .ok (s.toList.map (fun c => JsonVal.str (String.mk [c])))
  | .obj fs => .ok (fs.map (fun p => JsonVal.str p.1))
  | _ => .error .typeError

/-- Python truthiness of a JSON value (`if x:`). -/
def pyTruthy : JsonVal → Bool
  | .null => false
  | .bool b => b
  | .num n => n != 0
  | .str s => s != ""
  | .arr xs => !xs.isEmpty
  | .obj fs => !fs.isEmpty

/-- Python numeric coercion for `timedelta(seconds=x)`: ints pass through,
bools are 0/1, anything else raises TypeError. -/
def pyNum : JsonVal → Except PyErr Int
  | .num n => .ok n
  | .bool b => .ok (if b then 1 else 0)
  | _ => .error .typeError

/-- An HTTP response as the code observes it: `status` is
`response.status_code`; `json = some body` means `response.json()` parses
to `body`, `json = none` means `response.json()` raises. -/
structure HttpResponse : Type where
  status : Nat
  json : Option JsonVal

/-- `response.json()`. -/
def respJson (r : HttpResponse) : Except PyErr JsonVal :=
  match r.json with
  | some j => .ok j
  | none => .error .valueError

/-- A stored credential record (one value of `token_storage`,
app.py lines 73-78 / 133-138).  `expires_at` is an absolute instant. -/
structure TokenData : Type where
  access_token : JsonVal
  refresh_token : JsonVal
  expires_at : Int
  scope : JsonVal

/-- The credential store `token_storage`, keyed by portal id. -/
abbrev Storage : Type := String → Option TokenData

def emptyStorage : Storage := fun _ => none

/-- `token_storage[portal_id] = v`. -/
def storageSet (s : Storage) (k : String) (v : TokenData) : Storage :=
  fun q => if q = k then some v else s q

/-- Sequential monadic loop over a list, accumulating the produced values
in order (the shape of every `for` loop in the source). -/
def eachM {α β : Type} (f : α → Except PyErr β) : List α → Except PyErr (List β)
  | [] => .ok []
  | x :: xs => do
    let y ← f x
    let ys ← eachM f xs
    .ok (y :: ys)

/-- `refresh_access_token(portal_id, refresh_token)`, app.py lines 60-82.
`resp` is the token endpoint's answer to the one POST issued; `now` is the
instant `datetime.now()` reads.  Returns the updated store and the value
the function returns (`none` models Python `None`). -/
def refresh_access_token (resp : HttpResponse) (now : Int) (storage : Storage)
    (portal_id : String) (refresh_token : JsonVal) :
    Except PyErr (Storage × Option JsonVal) :=
  if resp.status = 200 then do
    let token_data ← respJson resp
    let atk ← pyIndex token_data "access_token"
    let rtk ← pyGet token_data "refresh_token" refresh_token
    let ein ← pyIndex token_data "expires_in"
    let eis ← pyNum ein
    let sck ← pyGet token_data "scope" (JsonVal.str "")
    .ok (storageSet storage portal_id ⟨atk, rtk, now + eis, sck⟩, some atk)
  else
    .ok (storage, none)

/-- The result of one token resolution: the store afterwards, the returned
access token (`none` models Python `None`), and — as instrumentation — how
many times `refresh_access_token` was invoked. -/
structure ResolveResult : Type where
  storage : Storage
  token : Option JsonVal
  refreshCalls : Nat

/-- `get_hubspot_access_token(portal_id)`, app.py lines 44-58. -/
def get_hubspot_access_token (resp : HttpResponse) (now : Int)
    (storage : Storage) (portal_id : String) : Except PyErr ResolveResult :=
  match storage portal_id with
  | none => .ok ⟨storage, none, 0⟩
  | some token_data =>
    if now > token_data.expires_at then
      if pyTruthy token_data.refresh_token then
        match refresh_access_token resp now storage portal_id
            token_data.refresh_token with
        | .ok (storage1, tok) => .ok ⟨storage1, tok, 1⟩
        | .error e => .error e
      else .ok ⟨storage, none, 0⟩
    else .ok ⟨storage, some token_data.access_token, 0⟩

/-- A canonical line-item record as appended by either strategy
(app.py lines 251-257 and 315-321).  Field values are the raw JSON values
copied from the upstream properties. -/
structure LineItem : Type where
  deal_name : JsonVal
  line_item_name : JsonVal
  quantity : JsonVal
  unit_price : JsonVal
  amount : JsonVal

/-- The network environment of one fetch: the response to the single
GraphQL POST, to the company-deals association GET, and — per object id
interpolated into the URL — to the deal GET, the deal line-item
association GET, and the line-item GET. -/
structure World : Type where
  graphqlResp : HttpResponse
  dealsResp : HttpResponse
  dealResp : JsonVal → HttpResponse
  dealLineItemsResp : JsonVal → HttpResponse
  lineItemResp : JsonVal → HttpResponse

/-- The record built for one line item of one deal in the GraphQL
strategy (loop body, app.py lines 249-257). -/
def graphqlLineItemRecord (deal_name : JsonVal) (line_item : JsonVal) :
    Except PyErr LineItem := do
  let props ← pyGet line_item "properties" (JsonVal.obj [])
  let nm ← pyGet props "name" (JsonVal.str "Unknown Item")
  let qt ← pyGet props "quantity" (JsonVal.num 0)
  let pr ← pyGet props "price" (JsonVal.num 0)
  let am ← pyGet props "amount" (JsonVal.num 0)
  .ok ⟨deal_name, nm, qt, pr, am⟩

/-- The records contributed by one deal in the GraphQL strategy
(outer loop body, app.py lines 245-257). -/
def graphqlDealItems (deal : JsonVal) : Except PyErr (List LineItem) := do
  let p1 ← pyGet deal "properties" (JsonVal.obj [])
  let deal_name ← pyGet p1 "dealname" (JsonVal.str "Unknown Deal")
  let a1 ← pyGet deal "associations" (JsonVal.obj [])
  let a2 ← pyGet a1 "lineItems" (JsonVal.obj [])
  let itemsJ ← pyGet a2 "items" (JsonVal.arr [])
  let line_items_data ← pyIter itemsJ
  let lists ← eachM (graphqlLineItemRecord deal_name) line_items_data
  .ok lists

/-- `get_company_line_items_graphql(access_token, company_id)`,
app.py lines 184-259.  `.ok none` is the inconclusive sentinel
(Python `None`); `.ok (some items)` is a conclusive result. -/
def get_company_line_items_graphql (resp : HttpResponse) :
    Except PyErr (Option (List LineItem)) :=
  if resp.status ≠ 200 then .ok none
  else do
    let data ← respJson resp
    let hasErr ← pyIn "errors" data
    if hasErr then .ok none
    else do
      let d1 ← pyGet data "data" (JsonVal.obj [])
      let d2 ← pyGet d1 "CRM" (JsonVal.obj [])
      let company_data ← pyGet d2 "company" (JsonVal.obj [])
      let b1 ← pyGet company_data "associations" (JsonVal.obj [])
      let b2 ← pyGet b1 "deals" (JsonVal.obj [])
      let dealsJ ← pyGet b2 "items" (JsonVal.arr [])
      let deals ← pyIter dealsJ
      let lists ← eachM graphqlDealItems deals
      .ok (some lists.flatten)

/-- The record built for one full line-item body in the REST strategy
(app.py lines 312-321). -/
def restLineItemRecord (deal_name : JsonVal) (line_item_data : JsonVal) :
    Except PyErr LineItem := do
  let props ← pyGet line_item_data "properties" (JsonVal.obj [])
  let nm ← pyGet props "name" (JsonVal.str "Unknown Item")
  let qt ← pyGet props "quantity" (JsonVal.num 0)
  let pr ← pyGet props "price" (JsonVal.num 0)
  let am ← pyGet props "amount" (JsonVal.num 0)
  .ok ⟨deal_name, nm, qt, pr, am⟩

/-- One line-item association of one deal in the REST strategy
(inner loop body, app.py lines 303-321): a non-success status on the
line-item fetch skips the node (`continue`), contributing `[]`. -/
def restLineItemNode (w : World) (deal_name : JsonVal)
    (line_item_association : JsonVal) : Except PyErr (List LineItem) := do
  let line_item_id ← pyIndex line_item_association "id"
  let r := w.lineItemResp line_item_id
  if r.status ≠ 200 then .ok []
  else do
    let line_item_data ← respJson r
    let r0 ← restLineItemRecord deal_name line_item_data
    .ok [r0]

/-- One deal association in the REST strategy (outer loop body,
app.py lines 280-321): a non-success status on the deal fetch or on the
line-item association list skips the whole deal (`continue`). -/
def restDealItems (w : World) (deal_association : JsonVal) :
    Except PyErr (List LineItem) := do
  let deal_id ← pyIndex deal_association "id"
  let dr := w.dealResp deal_id
  if dr.status ≠ 200 then .ok []
  else do
    let deal_data ← respJson dr
    let p1 ← pyGet deal_data "properties" (JsonVal.obj [])
    let deal_name ← pyGet p1 "dealname" (JsonVal.str "Unknown Deal")
    let lr := w.dealLineItemsResp deal_id
    if lr.status ≠ 200 then .ok []
    else do
      let line_items_data ← respJson lr
      let resJ ← pyGet line_items_data "results" (JsonVal.arr [])
      let assocs ← pyIter resJ
      let lists ← eachM (restLineItemNode w deal_name) assocs
      .ok lists.flatten

/-- `get_company_line_items_rest(access_token, company_id)`,
app.py lines 261-323. -/
def get_company_line_items_rest (w : World) : Except PyErr (List LineItem) :=
  if w.dealsResp.status ≠ 200 then .ok []
  else do
    let deals_data ← respJson w.dealsResp
    let resJ ← pyGet deals_data "results" (JsonVal.arr [])
    let assocs ← pyIter resJ
    let lists ← eachM (restDealItems w) assocs
    .ok lists.flatten

/-- The retrieval core of the route (app.py lines 169-173, the spec's
`fetchLineItems`): GraphQL first, REST fallback exactly when the GraphQL
strategy returns the `None` sentinel. -/
def fetchLineItems (w : World) : Except PyErr (List LineItem) := do
  let line_items ← get_company_line_items_graphql w.graphqlResp
  match line_items with
  | some items => .ok items
  | none => get_company_line_items_rest w

/-- The body of a route response (`jsonify(...)` payload). -/
inductive RouteBody : Type
  | errMsg (msg : String) : RouteBody
  | items (company_id : String) (line_items : List LineItem) : RouteBody

/-- One route invocation's outcome: store afterwards, HTTP status, body. -/
structure RouteResult : Type where
  storage : Storage
  status : Nat
  body : RouteBody

/-- The `/api/company/<company_id>/line-items` route,
`get_company_line_items`, app.py lines 146-182.  The signature header is
modelled as absent (the spec excludes webhook signature verification from
the core), so the verification block at lines 155-160 is skipped.  The
`try` block maps any exception from the fetch to a 500 error response;
exceptions raised while resolving the token (outside the `try`) propagate. -/
def get_company_line_items (w : World) (refreshResp : HttpResponse)
    (now : Int) (storage : Storage) (portal_id : Option String)
    (company_id : String) : Except PyErr RouteResult :=
  match portal_id with
  | none => .ok ⟨storage, 400, .errMsg "Portal ID not provided"⟩
  | some pid =>
    if pid = "" then .ok ⟨storage, 400, .errMsg "Portal ID not provided"⟩
    else do
      let r ← get_hubspot_access_token refreshResp now storage pid
      let valid := match r.token with
        | none => false
        | some t => pyTruthy t
      if valid then
        match fetchLineItems w with
        | .ok items => .ok ⟨r.storage, 200, .items company_id items⟩
        | .error _ => .ok ⟨r.storage, 500, .errMsg "Failed to fetch line items"⟩
      else .ok ⟨r.storage, 401, .errMsg "No valid access token found"⟩

/-! ### Reduction helpers for the Except monad -/

theorem bind_ok_eq {α β : Type} (a : α) (f : α → Except PyErr β) :
    (Except.ok a >>= f) = f a := rfl

theorem bind_error_eq {α β : Type} (e : PyErr) (f : α → Except PyErr β) :
    ((Except.error e : Except PyErr α) >>= f) = .error e := rfl

/-- The success case of `refresh_access_token`: the store gains the
replacement record and the new access token is returned. -/
theorem refresh_access_token_success (resp : HttpResponse) (now : Int)
    (storage : Storage) (portal_id : String) (rt : JsonVal)
    (fs : List (String × JsonVal)) (atk : JsonVal) (ein : Int)
    (h200 : resp.status = 200) (hj : resp.json = some (JsonVal.obj fs))
    (hat : List.lookup "access_token" fs = some atk)
    (hei : List.lookup "expires_in" fs = some (JsonVal.num ein)) :
    refresh_access_token resp now storage portal_id rt
      = .ok (storageSet storage portal_id
          ⟨atk, (List.lookup "refresh_token" fs).getD rt, now + ein,
           (List.lookup "scope" fs).getD (JsonVal.str "")⟩, some atk) := by
  unfold refresh_access_token
  rw [if_pos h200]
  simp only [respJson, hj, bind_ok_eq, pyIndex, pyGet, pyNum, hat, hei]

/-- A non-success status from the token endpoint: `refresh_access_token`
returns the failure sentinel and the store is untouched. -/
theorem refresh_non_success_eq (resp : HttpResponse) (now : Int)
    (storage : Storage) (portal_id : String) (refresh_token : JsonVal)
    (h : resp.status ≠ 200) :
    refresh_access_token resp now storage portal_id refresh_token
      = .ok (storage, none) := by
  simp [refresh_access_token, h]

/-- On an expired record with a truthy refresh token, resolution is the
outcome of the single refresh call, tagged with call count 1. -/
theorem resolve_expired_is_refresh (resp : HttpResponse) (now : Int)
    (storage : Storage) (portal_id : String) (td : TokenData)
    (hs : storage portal_id = some td) (hexp : now > td.expires_at)
    (hrt : pyTruthy td.refresh_token = true) :
    get_hubspot_access_token resp now storage portal_id
      = (refresh_access_token resp now storage portal_id
           td.refresh_token).map (fun p => ⟨p.1, p.2, 1⟩) := by
  unfold get_hubspot_access_token
  rw [hs]
  simp only [hexp, if_true, hrt, if_pos]
  cases h : refresh_access_token resp now storage portal_id
      td.refresh_token with
  | ok p => cases p; rfl
  | error e => rfl

/-! ### Concrete data used by witnesses -/

/-- A fresh (non-expired at instant 5) credential record. -/
def tdFresh : TokenData := ⟨JsonVal.str "a1", JsonVal.null, 100, JsonVal.str ""⟩

/-- An expired credential record holding refresh token "r1". -/
def tdStale : TokenData := ⟨JsonVal.str "a1", JsonVal.str "r1", 90, JsonVal.str ""⟩

/-- A refresh response carrying a new access token and lifetime but no
refresh_token and no scope. -/
def refreshRespOk : HttpResponse :=
  ⟨200, some (JsonVal.obj [("access_token", JsonVal.str "a2"),
                           ("expires_in", JsonVal.num 3600)])⟩

/-! ### C10, C5, C4, C6: the token lifecycle -/

/-- C10: a non-success status from the token endpoint makes
`refresh_access_token` return the failure sentinel and leave the whole
credential store untouched (the same `Storage` value, every tenant). -/
theorem refresh_failure_leaves_storage (resp : HttpResponse) (now : Int)
    (storage : Storage) (portal_id : String) (refresh_token : JsonVal)
    (h : resp.status ≠ 200) :
    refresh_access_token resp now storage portal_id refresh_token
      = .ok (storage, none) :=
  refresh_non_success_eq resp now storage portal_id refresh_token h

/-- Witness for C10 at a concrete failing response. -/
theorem refresh_failure_leaves_storage_witness :
    refresh_access_token ⟨500, none⟩ 0 emptyStorage "42" (JsonVal.str "r1")
      = .ok (emptyStorage, none) :=
  refresh_failure_leaves_storage ⟨500, none⟩ 0 emptyStorage "42"
    (JsonVal.str "r1") (by decide)

/-- C5: with a stored, non-expired credential, resolution returns the
stored access token unchanged, performs zero refresh calls, and the
resulting store is the very same value (every tenant's record unchanged);
the conclusion holds for every possible network response `resp`, so no
network call can influence it. -/
theorem resolve_fresh_no_network (resp : HttpResponse) (now : Int)
    (storage : Storage) (portal_id : String) (td : TokenData)
    (hs : storage portal_id = some td) (hexp : now ≤ td.expires_at) :
    get_hubspot_access_token resp now storage portal_id
      = .ok ⟨storage, some td.access_token, 0⟩ := by
  unfold get_hubspot_access_token
  rw [hs]
  simp [not_lt.mpr hexp]

/-- Witness for C5 at a concrete store and instant. -/
theorem resolve_fresh_no_network_witness :
    get_hubspot_access_token ⟨500, none⟩ 5
        (storageSet emptyStorage "42" tdFresh) "42"
      = .ok ⟨storageSet emptyStorage "42" tdFresh, some tdFresh.access_token, 0⟩ :=
  resolve_fresh_no_network ⟨500, none⟩ 5 (storageSet emptyStorage "42" tdFresh)
    "42" tdFresh (by simp [storageSet]) (by decide)

/-- C4: resolving an expired record with a truthy refresh token, when the
refresh endpoint answers success with a body that has an access token and
a lifetime but no `refresh_token` (and no scope), stores a record whose
refresh token is exactly the prior one while access token and expiry are
replaced, and returns the new access token. -/
theorem refresh_retains_refresh_token (resp : HttpResponse) (now : Int)
    (storage : Storage) (portal_id : String) (td : TokenData)
    (fs : List (String × JsonVal)) (atk : JsonVal) (ein : Int)
    (hs : storage portal_id = some td) (hexp : now > td.expires_at)
    (hrt : pyTruthy td.refresh_token = true)
    (h200 : resp.status = 200) (hj : resp.json = some (JsonVal.obj fs))
    (hat : List.lookup "access_token" fs = some atk)
    (hnort : List.lookup "refresh_token" fs = none)
    (hei : List.lookup "expires_in" fs = some (JsonVal.num ein))
    (hsc : List.lookup "scope" fs = none) :
    get_hubspot_access_token resp now storage portal_id
      = .ok ⟨storageSet storage portal_id
          ⟨atk, td.refresh_token, now + ein, JsonVal.str ""⟩, some atk, 1⟩ := by
  rw [resolve_expired_is_refresh resp now storage portal_id td hs hexp hrt,
    refresh_access_token_success resp now storage portal_id td.refresh_token
      fs atk ein h200 hj hat hei, hnort, hsc]
  rfl

/-- Witness for C4: the spec's concrete scenario — tenant "42", expired at
90 with `now = 100`, refresh token "r1", response
`{access_token: "a2", expires_in: 3600}` — yields the stored record
`{access_token: "a2", refresh_token: "r1", expires_at: 100 + 3600}`. -/
theorem refresh_retains_refresh_token_witness :
    get_hubspot_access_token refreshRespOk 100
        (storageSet emptyStorage "42" tdStale) "42"
      = .ok ⟨storageSet (storageSet emptyStorage "42" tdStale) "42"
          ⟨JsonVal.str "a2", JsonVal.str "r1", 100 + 3600, JsonVal.str ""⟩,
          some (JsonVal.str "a2"), 1⟩ :=
  refresh_retains_refresh_token refreshRespOk 100
    (storageSet emptyStorage "42" tdStale) "42" tdStale
    [("access_token", JsonVal.str "a2"), ("expires_in", JsonVal.num 3600)]
    (JsonVal.str "a2") 3600
    (by simp [storageSet]) (by decide) rfl rfl rfl rfl rfl rfl rfl

/-- C6: on an expired record with a truthy refresh token, resolution is
exactly one invocation of `refresh_access_token` (its outcome, tagged with
call count 1, is the whole result — no retry, no second refresh); and
whenever that refresh succeeds with a non-negative `expires_in`, the
stored record's expiry strictly increases. -/
theorem resolve_expired_refresh_once (resp : HttpResponse) (now : Int)
    (storage : Storage) (portal_id : String) (td : TokenData)
    (hs : storage portal_id = some td) (hexp : now > td.expires_at)
    (hrt : pyTruthy td.refresh_token = true) :
    (get_hubspot_access_token resp now storage portal_id
       = (refresh_access_token resp now storage portal_id
            td.refresh_token).map (fun p => ⟨p.1, p.2, 1⟩)) ∧
    (∀ fs atk ein, resp.status = 200 → resp.json = some (JsonVal.obj fs) →
       List.lookup "access_token" fs = some atk →
       List.lookup "expires_in" fs = some (JsonVal.num ein) → 0 ≤ ein →
       ∃ td1 r, get_hubspot_access_token resp now storage portal_id = .ok r ∧
         r.refreshCalls = 1 ∧ r.storage portal_id = some td1 ∧
         td.expires_at < td1.expires_at) := by
  refine ⟨resolve_expired_is_refresh resp now storage portal_id td hs hexp hrt,
    ?_⟩
  intro fs atk ein h200 hj hat hei hein
  have hres : get_hubspot_access_token resp now storage portal_id
      = .ok ⟨storageSet storage portal_id
          ⟨atk, (List.lookup "refresh_token" fs).getD td.refresh_token,
           now + ein, (List.lookup "scope" fs).getD (JsonVal.str "")⟩,
          some atk, 1⟩ := by
    rw [resolve_expired_is_refresh resp now storage portal_id td hs hexp hrt,
      refresh_access_token_success resp now storage portal_id td.refresh_token
        fs atk ein h200 hj hat hei]
    rfl
  refine ⟨⟨atk, (List.lookup "refresh_token" fs).getD td.refresh_token,
      now + ein, (List.lookup "scope" fs).getD (JsonVal.str "")⟩,
    _, hres, rfl, ?_, ?_⟩
  · simp [storageSet]
  · show td.expires_at < now + ein
    omega

/-- Witness for C6 at the concrete expired record and refresh response. -/
theorem resolve_expired_refresh_once_witness :
    (get_hubspot_access_token refreshRespOk 100
         (storageSet emptyStorage "42" tdStale) "42"
       = (refresh_access_token refreshRespOk 100
            (storageSet emptyStorage "42" tdStale) "42"
            tdStale.refresh_token).map (fun p => ⟨p.1, p.2, 1⟩)) ∧
    (∃ td1 r, get_hubspot_access_token refreshRespOk 100
         (storageSet emptyStorage "42" tdStale) "42" = .ok r ∧
       r.refreshCalls = 1 ∧ r.storage "42" = some td1 ∧
       tdStale.expires_at < td1.expires_at) := by
  have h := resolve_expired_refresh_once refreshRespOk 100
    (storageSet emptyStorage "42" tdStale) "42" tdStale
    (by simp [storageSet]) (by decide) rfl
  exact ⟨h.1, h.2 [("access_token", JsonVal.str "a2"),
    ("expires_in", JsonVal.num 3600)] (JsonVal.str "a2") 3600
    rfl rfl rfl rfl (by decide)⟩

/-! ### C2: failure propagation at the calling layer -/

/-- A network environment in which every data endpoint fails. -/
def wIdle : World :=
  ⟨⟨500, none⟩, ⟨500, none⟩, fun _ => ⟨404, none⟩, fun _ => ⟨404, none⟩,
   fun _ => ⟨404, none⟩⟩

/-- A failing token-endpoint response. -/
def respFail : HttpResponse := ⟨500, none⟩

/-- C2 counterexample: the two failure modes the claim declares
distinguishable are not.  A tenant with no stored record and a tenant
whose expired record fails to refresh both produce the identical route
response — status 401 with the same error body — so the calling layer
cannot tell `NoCredential` from `AuthError`. -/
theorem resolve_failures_indistinguishable_cex :
    (get_company_line_items wIdle respFail 10 emptyStorage (some "42") "7"
       = .ok ⟨emptyStorage, 401, .errMsg "No valid access token found"⟩) ∧
    (get_company_line_items wIdle respFail 100
         (storageSet emptyStorage "42" tdStale) (some "42") "7"
       = .ok ⟨storageSet emptyStorage "42" tdStale, 401,
           .errMsg "No valid access token found"⟩) := by
  constructor <;> rfl

/-- C2 (amended): both the no-stored-record case and the
expired-record-with-failing-refresh case collapse to the same observable
outcome at the calling layer — the `None` token sentinel, rendered as the
one 401 response "No valid access token found" — so the caller cannot
distinguish them; and resolution never falls back to the stale access
token: the failing-refresh case returns the sentinel (after exactly one
refresh call) with the store unchanged, not the stored stale token. -/
theorem resolve_failures_collapse (w : World) (refreshResp : HttpResponse)
    (now : Int) (storage : Storage) (pid : String) (td : TokenData)
    (cid : String) (hpid : pid ≠ "") :
    (storage pid = none →
       get_company_line_items w refreshResp now storage (some pid) cid
         = .ok ⟨storage, 401, .errMsg "No valid access token found"⟩) ∧
    (storage pid = some td → now > td.expires_at →
       pyTruthy td.refresh_token = true → refreshResp.status ≠ 200 →
       get_hubspot_access_token refreshResp now storage pid
           = .ok ⟨storage, none, 1⟩ ∧
       get_company_line_items w refreshResp now storage (some pid) cid
         = .ok ⟨storage, 401, .errMsg "No valid access token found"⟩) := by
  constructor
  · intro h
    have hres : get_hubspot_access_token refreshResp now storage pid
        = .ok ⟨storage, none, 0⟩ := by
      unfold get_hubspot_access_token
      rw [h]
    simp only [get_company_line_items]
    rw [if_neg hpid, hres, bind_ok_eq]
    rfl
  · intro hs hexp hrt hfail
    have hres : get_hubspot_access_token refreshResp now storage pid
        = .ok ⟨storage, none, 1⟩ := by
      rw [resolve_expired_is_refresh refreshResp now storage pid td hs hexp hrt,
        refresh_non_success_eq refreshResp now storage pid
          td.refresh_token hfail]
      rfl
    refine ⟨hres, ?_⟩
    simp only [get_company_line_items]
    rw [if_neg hpid, hres, bind_ok_eq]
    rfl

/-- Witness for C2 (amended) at concrete stores and responses. -/
theorem resolve_failures_collapse_witness :
    (get_company_line_items wIdle respFail 10 emptyStorage (some "99") "7"
       = .ok ⟨emptyStorage, 401, .errMsg "No valid access token found"⟩) ∧
    (get_hubspot_access_token respFail 100
         (storageSet emptyStorage "42" tdStale) "42"
       = .ok ⟨storageSet emptyStorage "42" tdStale, none, 1⟩ ∧
     get_company_line_items wIdle respFail 100
         (storageSet emptyStorage "42" tdStale) (some "42") "7"
       = .ok ⟨storageSet emptyStorage "42" tdStale, 401,
           .errMsg "No valid access token found"⟩) := by
  have h1 := resolve_failures_collapse wIdle respFail 10 emptyStorage "99"
    tdStale "7" (by decide)
  have h2 := resolve_failures_collapse wIdle respFail 100
    (storageSet emptyStorage "42" tdStale) "42" tdStale "7" (by decide)
  exact ⟨h1.1 rfl, h2.2 (by simp [storageSet]) (by decide) rfl (by decide)⟩

/-! ### C1: the fallback trigger -/

/-- The deals-association body of the demonstration REST world: two deals,
ids "A" and "B". -/
def dealsBodyW : JsonVal :=
  .obj [("results", .arr [.obj [("id", .str "A")], .obj [("id", .str "B")]])]

/-- A REST world with two deals.  Deal "A" resolves but its line-item
association call fails (status 500); deal "B" yields one line item "L1"
with full properties.  The GraphQL endpoint fails with status 500. -/
def wRestDemo : World where
  graphqlResp := ⟨500, none⟩
  dealsResp := ⟨200, some dealsBodyW⟩
  dealResp := fun i => match i with
    | .str "A" =>
      ⟨200, some (.obj [("properties", .obj [("dealname", .str "Deal A")])])⟩
    | .str "B" =>
      ⟨200, some (.obj [("properties", .obj [("dealname", .str "Deal B")])])⟩
    | _ => ⟨404, none⟩
  dealLineItemsResp := fun i => match i with
    | .str "A" => ⟨500, none⟩
    | .str "B" => ⟨200, some (.obj [("results", .arr [.obj [("id", .str "L1")]])])⟩
    | _ => ⟨404, none⟩
  lineItemResp := fun i => match i with
    | .str "L1" =>
      ⟨200, some (.obj [("properties",
        .obj [("name", .str "Widget"), ("quantity", .num 2),
              ("price", .num 5), ("amount", .num 10)])])⟩
    | _ => ⟨404, none⟩

/-- The same REST world but with a successful GraphQL response whose body
contains no deals at all. -/
def wEmptySuccess : World :=
  { wRestDemo with graphqlResp := ⟨200, some (.obj [])⟩ }

/-- C1: the REST fallback runs exactly when the GraphQL strategy returns
the `None` sentinel.  (1) A conclusive GraphQL result (even an empty list)
is the final answer for every world sharing that GraphQL response — no
REST endpoint can influence it, so no REST call is made.  (2) The sentinel
hands over to the REST traversal verbatim.  (3) A non-success GraphQL
status yields the sentinel.  (4) An explicit error list in a success body
yields the sentinel. -/
theorem fetch_fallback_iff_sentinel (w : World) :
    (∀ items, get_company_line_items_graphql w.graphqlResp
         = .ok (some items) →
       ∀ w1 : World, w1.graphqlResp = w.graphqlResp →
         fetchLineItems w1 = .ok items) ∧
    (get_company_line_items_graphql w.graphqlResp = .ok none →
       fetchLineItems w = get_company_line_items_rest w) ∧
    (w.graphqlResp.status ≠ 200 →
       get_company_line_items_graphql w.graphqlResp = .ok none) ∧
    (∀ body, w.graphqlResp.status = 200 → w.graphqlResp.json = some body →
       pyIn "errors" body = .ok true →
       get_company_line_items_graphql w.graphqlResp = .ok none) := by
  refine ⟨?_, ?_, ?_, ?_⟩
  · intro items h w1 hw
    unfold fetchLineItems
    rw [hw, h, bind_ok_eq]
  · intro h
    unfold fetchLineItems
    rw [h, bind_ok_eq]
  · intro h
    unfold get_company_line_items_graphql
    rw [if_pos h]
  · intro body h200 hj herr
    unfold get_company_line_items_graphql
    rw [if_neg (by simp [h200])]
    simp only [respJson, hj, bind_ok_eq, herr]
    simp

/-- Witness for C1: a success-with-zero-deals GraphQL response returns the
empty sequence even though the ambient REST world would have produced a
record, and a failing GraphQL response hands over to the REST traversal. -/
theorem fetch_fallback_iff_sentinel_witness :
    fetchLineItems wEmptySuccess = .ok [] ∧
    fetchLineItems wRestDemo = get_company_line_items_rest wRestDemo ∧
    get_company_line_items_graphql wRestDemo.graphqlResp = .ok none := by
  have h1 := (fetch_fallback_iff_sentinel wEmptySuccess).1 [] rfl
    wEmptySuccess rfl
  have h3 := (fetch_fallback_iff_sentinel wRestDemo).2.2.1 (by decide)
  exact ⟨h1, (fetch_fallback_iff_sentinel wRestDemo).2.1 h3, h3⟩

/-! ### C3: absent containers do not trigger the sentinel -/

/-- C3 counterexample: a success response whose body is `{}` — every
expected container (data, CRM, company, associations, deals, items) is
absent — makes the GraphQL strategy return the conclusive empty list, not
the inconclusive sentinel, so the REST fallback is not triggered. -/
theorem gql_missing_containers_cex :
    get_company_line_items_graphql ⟨200, some (JsonVal.obj [])⟩
        = .ok (some []) ∧
    (Except.ok (some []) : Except PyErr (Option (List LineItem)))
        ≠ .ok none := by
  refine ⟨rfl, ?_⟩
  simp

/-- In the success branch with no error list, the GraphQL strategy can
only raise or return a conclusive `some` result — never the sentinel. -/
theorem gql_no_errors_not_none (resp : HttpResponse) (body : JsonVal)
    (h200 : resp.status = 200) (hj : resp.json = some body)
    (herr : pyIn "errors" body = .ok false) :
    get_company_line_items_graphql resp ≠ .ok none := by
  unfold get_company_line_items_graphql
  rw [if_neg (by simp [h200])]
  simp only [respJson, hj, bind_ok_eq, herr, Bool.false_eq_true, if_false]
  cases h1 : pyGet body "data" (JsonVal.obj []) with
  | error e => simp [bind_error_eq]
  | ok d1 =>
  rw [bind_ok_eq]
  cases h2 : pyGet d1 "CRM" (JsonVal.obj []) with
  | error e => simp [bind_error_eq]
  | ok d2 =>
  rw [bind_ok_eq]
  cases h3 : pyGet d2 "company" (JsonVal.obj []) with
  | error e => simp [bind_error_eq]
  | ok company_data =>
  rw [bind_ok_eq]
  cases h4 : pyGet company_data "associations" (JsonVal.obj []) with
  | error e => simp [bind_error_eq]
  | ok b1 =>
  rw [bind_ok_eq]
  cases h5 : pyGet b1 "deals" (JsonVal.obj []) with
  | error e => simp [bind_error_eq]
  | ok b2 =>
  rw [bind_ok_eq]
  cases h6 : pyGet b2 "items" (JsonVal.arr []) with
  | error e => simp [bind_error_eq]
  | ok dealsJ =>
  rw [bind_ok_eq]
  cases h7 : pyIter dealsJ with
  | error e => simp [bind_error_eq]
  | ok deals =>
  rw [bind_ok_eq]
  cases h8 : eachM graphqlDealItems deals with
  | error e => simp [bind_error_eq]
  | ok lists =>
  rw [bind_ok_eq]
  simp

/-- C3 (amended): the inconclusive sentinel is returned EXACTLY when the
call has a non-success status or the parsed success body contains an
explicit error list (Python `'errors' in data`) — never because expected
containers are absent.  A success body without errors whose containers
are absent at any level of the data/CRM/company/associations/deals/items
nesting (each container that is present being an object) is traversed
through the chain of `.get` defaults and yields the conclusive empty
list; absence at a higher level forces every level below it to the `{}`
default, so the single chain of `getD` hypotheses covers absence at
every depth. -/
theorem gql_sentinel_condition (resp : HttpResponse) :
    (get_company_line_items_graphql resp = .ok none ↔
       resp.status ≠ 200 ∨
       ∃ body, resp.json = some body ∧ pyIn "errors" body = .ok true) ∧
    (∀ fs d1 d2 cfs afs dfs,
       resp.status = 200 → resp.json = some (JsonVal.obj fs) →
       List.lookup "errors" fs = none →
       (List.lookup "data" fs).getD (JsonVal.obj []) = JsonVal.obj d1 →
       (List.lookup "CRM" d1).getD (JsonVal.obj []) = JsonVal.obj d2 →
       (List.lookup "company" d2).getD (JsonVal.obj []) = JsonVal.obj cfs →
       (List.lookup "associations" cfs).getD (JsonVal.obj [])
           = JsonVal.obj afs →
       (List.lookup "deals" afs).getD (JsonVal.obj []) = JsonVal.obj dfs →
       List.lookup "items" dfs = none →
       get_company_line_items_graphql resp = .ok (some [])) := by
  constructor
  · constructor
    · intro h
      by_cases hs : resp.status = 200
      · right
        cases hj : resp.json with
        | none =>
          exfalso
          unfold get_company_line_items_graphql at h
          rw [if_neg (by simp [hs])] at h
          simp [respJson, hj, bind_error_eq] at h
        | some body =>
          refine ⟨body, rfl, ?_⟩
          cases hin : pyIn "errors" body with
          | error e =>
            exfalso
            unfold get_company_line_items_graphql at h
            rw [if_neg (by simp [hs])] at h
            simp [respJson, hj, bind_ok_eq, hin, bind_error_eq] at h
          | ok b =>
            cases b with
            | true => rfl
            | false => exact absurd h (gql_no_errors_not_none resp body hs hj hin)
      · left
        exact hs
    · intro h
      rcases h with hs | ⟨body, hj, herr⟩
      · unfold get_company_line_items_graphql
        rw [if_pos hs]
      · by_cases hs : resp.status = 200
        · unfold get_company_line_items_graphql
          rw [if_neg (by simp [hs])]
          simp only [respJson, hj, bind_ok_eq, herr]
          simp
        · unfold get_company_line_items_graphql
          rw [if_pos (by simp [hs])]
  · intro fs d1 d2 cfs afs dfs h200 hj herr hd1 hd2 hcfs hafs hdfs hitems
    unfold get_company_line_items_graphql
    rw [if_neg (by simp [h200])]
    simp only [respJson, hj, bind_ok_eq, pyIn, herr, Option.isSome_none,
      Bool.false_eq_true, if_false]
    simp only [pyGet, hd1, bind_ok_eq, hd2, hcfs, hafs, hdfs, hitems]
    rfl

/-- Witness for C3 (amended): a failing status, an error-list success
body, and a success body with `data` and `CRM` present but the `company`
container (and everything below) absent. -/
theorem gql_sentinel_condition_witness :
    get_company_line_items_graphql ⟨500, none⟩ = .ok none ∧
    get_company_line_items_graphql
        ⟨200, some (JsonVal.obj [("errors", JsonVal.arr [])])⟩ = .ok none ∧
    get_company_line_items_graphql
        ⟨200, some (JsonVal.obj
          [("data", JsonVal.obj [("CRM", JsonVal.obj [])])])⟩
      = .ok (some []) := by
  have h1 := (gql_sentinel_condition ⟨500, none⟩).1.mpr
    (Or.inl (by decide))
  have h2 := (gql_sentinel_condition
    ⟨200, some (JsonVal.obj [("errors", JsonVal.arr [])])⟩).1.mpr
    (Or.inr ⟨JsonVal.obj [("errors", JsonVal.arr [])], rfl, rfl⟩)
  have h3 := (gql_sentinel_condition
    ⟨200, some (JsonVal.obj
      [("data", JsonVal.obj [("CRM", JsonVal.obj [])])])⟩).2
    [("data", JsonVal.obj [("CRM", JsonVal.obj [])])]
    [("CRM", JsonVal.obj [])] [] [] [] []
    rfl rfl rfl rfl rfl rfl rfl rfl rfl
  exact ⟨h1, h2, h3⟩

/-! ### C7: per-node failures in the REST traversal -/

/-- C7: partial failure is isolated.  Concretely, in `wRestDemo` — two
deals, where deal "A"'s line-item association call fails with a
non-success status and deal "B" yields one line item — the fetch returns
exactly deal "B"'s record, not an error.  In general, the REST traversal
is the flattened concatenation of an independent per-deal computation, and
a deal whose line-item association call fails contributes the empty list
(it is skipped) rather than an error, so a failure while traversing one
deal never removes the records obtained from the others. -/
theorem rest_partial_failure_isolated :
    ((wRestDemo.dealLineItemsResp (JsonVal.str "A")).status ≠ 200 ∧
     fetchLineItems wRestDemo
       = .ok [⟨JsonVal.str "Deal B", JsonVal.str "Widget", JsonVal.num 2,
               JsonVal.num 5, JsonVal.num 10⟩]) ∧
    (∀ (w : World) (deals_data : JsonVal) (ds : List JsonVal),
       w.dealsResp.status = 200 → w.dealsResp.json = some deals_data →
       pyGet deals_data "results" (JsonVal.arr []) = .ok (JsonVal.arr ds) →
       get_company_line_items_rest w
         = (eachM (restDealItems w) ds).map List.flatten) ∧
    (∀ (w : World) (da deal_id deal_data p1 deal_name : JsonVal),
       pyIndex da "id" = .ok deal_id →
       (w.dealResp deal_id).status = 200 →
       (w.dealResp deal_id).json = some deal_data →
       pyGet deal_data "properties" (JsonVal.obj []) = .ok p1 →
       pyGet p1 "dealname" (JsonVal.str "Unknown Deal") = .ok deal_name →
       (w.dealLineItemsResp deal_id).status ≠ 200 →
       restDealItems w da = .ok []) := by
  refine ⟨⟨by decide, rfl⟩, ?_, ?_⟩
  · intro w deals_data ds h200 hj hres
    unfold get_company_line_items_rest
    rw [if_neg (by simp [h200])]
    simp only [respJson, hj, bind_ok_eq, hres, pyIter]
    cases h : eachM (restDealItems w) ds with
    | ok l => rfl
    | error e => rfl
  · intro w da deal_id deal_data p1 deal_name hid h200 hj hp hdn hfail
    unfold restDealItems
    rw [hid, bind_ok_eq, if_neg (by simp [h200])]
    simp only [respJson, hj, bind_ok_eq, hp, hdn]
    rw [if_pos hfail]

/-- Witness for C7 at the demonstration world. -/
theorem rest_partial_failure_isolated_witness :
    fetchLineItems wRestDemo
      = .ok [⟨JsonVal.str "Deal B", JsonVal.str "Widget", JsonVal.num 2,
              JsonVal.num 5, JsonVal.num 10⟩] ∧
    get_company_line_items_rest wRestDemo
      = (eachM (restDealItems wRestDemo)
          [.obj [("id", .str "A")], .obj [("id", .str "B")]]).map
            List.flatten ∧
    restDealItems wRestDemo (JsonVal.obj [("id", JsonVal.str "A")])
      = .ok [] := by
  have h := rest_partial_failure_isolated
  exact ⟨h.1.2,
    h.2.1 wRestDemo dealsBodyW [.obj [("id", .str "A")], .obj [("id", .str "B")]]
      rfl rfl rfl,
    h.2.2 wRestDemo (JsonVal.obj [("id", JsonVal.str "A")]) (JsonVal.str "A")
      (.obj [("properties", .obj [("dealname", .str "Deal A")])])
      (.obj [("dealname", .str "Deal A")]) (.str "Deal A")
      rfl rfl rfl rfl rfl (by decide)⟩

/-! ### C9: normalization shared between the strategies -/

/-- The fully-defaulted canonical record. -/
def sentinelRecord : LineItem :=
  ⟨JsonVal.str "Unknown Deal", JsonVal.str "Unknown Item", JsonVal.num 0,
   JsonVal.num 0, JsonVal.num 0⟩

/-- A GraphQL deal node with no properties whose single line item has no
properties either. -/
def dealNoProps : JsonVal :=
  .obj [("associations",
         .obj [("lineItems", .obj [("items", .arr [JsonVal.obj []])])])]

/-- A REST world whose deal and line-item records carry no properties at
all: one deal "D" with one line item "L", both bodies `{}`. -/
def wC9 : World where
  graphqlResp := ⟨500, none⟩
  dealsResp := ⟨200, some (.obj [("results", .arr [.obj [("id", .str "D")]])])⟩
  dealResp := fun _ => ⟨200, some (JsonVal.obj [])⟩
  dealLineItemsResp :=
    fun _ => ⟨200, some (.obj [("results", .arr [.obj [("id", .str "L")]])])⟩
  lineItemResp := fun _ => ⟨200, some (JsonVal.obj [])⟩

/-- C9: both strategies build records through the identical normalization.
(1) The per-line-item record builders of the two strategies are the same
function, so equivalent upstream data yields equal records and a consumer
cannot tell the strategies apart.  (2) A line item whose properties
container omits name, quantity, price and amount yields, in both
strategies, the record with the "Unknown Item" sentinel and zeros.
(3) A deal with no properties yields the "Unknown Deal" sentinel in both
strategies: the GraphQL deal node and the REST traversal of the equivalent
upstream data produce the identical fully-defaulted record. -/
theorem normalization_shared_between_strategies :
    (∀ dn li, graphqlLineItemRecord dn li = restLineItemRecord dn li) ∧
    (∀ dn li props,
       pyGet li "properties" (JsonVal.obj []) = .ok (JsonVal.obj props) →
       List.lookup "name" props = none →
       List.lookup "quantity" props = none →
       List.lookup "price" props = none →
       List.lookup "amount" props = none →
       graphqlLineItemRecord dn li
           = .ok ⟨dn, JsonVal.str "Unknown Item", JsonVal.num 0,
                  JsonVal.num 0, JsonVal.num 0⟩ ∧
       restLineItemRecord dn li
           = .ok ⟨dn, JsonVal.str "Unknown Item", JsonVal.num 0,
                  JsonVal.num 0, JsonVal.num 0⟩) ∧
    (graphqlDealItems dealNoProps = .ok [sentinelRecord] ∧
     restDealItems wC9 (JsonVal.obj [("id", JsonVal.str "D")])
       = .ok [sentinelRecord]) := by
  refine ⟨fun dn li => rfl, ?_, rfl, rfl⟩
  intro dn li props hp hn hq hpr ha
  constructor
  · unfold graphqlLineItemRecord
    rw [hp, bind_ok_eq]
    simp only [pyGet, hn, hq, hpr, ha, bind_ok_eq, Option.getD_none]
  · unfold restLineItemRecord
    rw [hp, bind_ok_eq]
    simp only [pyGet, hn, hq, hpr, ha, bind_ok_eq, Option.getD_none]

/-- Witness for C9 at a concrete propertyless line item. -/
theorem normalization_shared_between_strategies_witness :
    graphqlLineItemRecord (JsonVal.str "D")
        (JsonVal.obj [("properties", JsonVal.obj [])])
      = .ok ⟨JsonVal.str "D", JsonVal.str "Unknown Item", JsonVal.num 0,
             JsonVal.num 0, JsonVal.num 0⟩ ∧
    restLineItemRecord (JsonVal.str "D")
        (JsonVal.obj [("properties", JsonVal.obj [])])
      = .ok ⟨JsonVal.str "D", JsonVal.str "Unknown Item", JsonVal.num 0,
             JsonVal.num 0, JsonVal.num 0⟩ ∧
    graphqlLineItemRecord (JsonVal.str "D") (JsonVal.obj [])
      = restLineItemRecord (JsonVal.str "D") (JsonVal.obj []) := by
  have h := normalization_shared_between_strategies
  have h2 := h.2.1 (JsonVal.str "D")
    (JsonVal.obj [("properties", JsonVal.obj [])]) [] rfl rfl rfl rfl rfl
  exact ⟨h2.1, h2.2, h.1 (JsonVal.str "D") (JsonVal.obj [])⟩

/-! ### C8: totality of the fetch layer

Well-shapedness predicates describing the documented response shapes: any
HTTP status is allowed everywhere, but a success body must parse and keep
every container that the code traverses an object (or the items list a
list).  These predicates are exactly the domain on which the traversal
code cannot raise. -/

/-- Is the value a JSON object. -/
def isObjB : JsonVal → Bool
  | .obj _ => true
  | _ => false

/-- One GraphQL line-item node: an object whose "properties" value
(defaulting to `{}`) is an object. -/
def gqlLineItemOk : JsonVal → Bool
  | .obj fs => isObjB ((List.lookup "properties" fs).getD (.obj []))
  | _ => false

/-- One GraphQL deal node: properties an object, and the
associations/lineItems/items chain objects ending in a list of
well-shaped line items. -/
def gqlDealOk : JsonVal → Bool
  | .obj fs =>
    isObjB ((List.lookup "properties" fs).getD (.obj [])) &&
    (match (List.lookup "associations" fs).getD (.obj []) with
     | .obj afs =>
       (match (List.lookup "lineItems" afs).getD (.obj []) with
        | .obj lfs =>
          (match (List.lookup "items" lfs).getD (.arr []) with
           | .arr lis => lis.all gqlLineItemOk
           | _ => false)
        | _ => false)
     | _ => false)
  | _ => false

/-- A GraphQL success body: the data/CRM/company/associations/deals chain
objects ending in a list of well-shaped deals. -/
def gqlBodyOk : JsonVal → Bool
  | .obj fs =>
    (match (List.lookup "data" fs).getD (.obj []) with
     | .obj d1 =>
       (match (List.lookup "CRM" d1).getD (.obj []) with
        | .obj d2 =>
          (match (List.lookup "company" d2).getD (.obj []) with
           | .obj cfs =>
             (match (List.lookup "associations" cfs).getD (.obj []) with
              | .obj afs =>
                (match (List.lookup "deals" afs).getD (.obj []) with
                 | .obj dfs =>
                   (match (List.lookup "items" dfs).getD (.arr []) with
                    | .arr ds => ds.all gqlDealOk
                    | _ => false)
                 | _ => false)
              | _ => false)
           | _ => false)
        | _ => false)
     | _ => false)
  | _ => false

/-- A response is well-shaped for body predicate `p`: any non-success
status is fine (the body is never read); a success body must parse and
satisfy `p`. -/
def respBodyOk (p : JsonVal → Bool) (r : HttpResponse) : Bool :=
  if r.status ≠ 200 then true
  else match r.json with
       | some b => p b
       | none => false

/-- One association entry: an object carrying an "id". -/
def restAssocOk : JsonVal → Bool
  | .obj fs => (List.lookup "id" fs).isSome
  | _ => false

/-- A fetched full-record body: "properties" (default `{}`) an object. -/
def restRecordOk : JsonVal → Bool
  | .obj fs => isObjB ((List.lookup "properties" fs).getD (.obj []))
  | _ => false

/-- An association-list body: "results" (default `[]`) a list of
well-shaped association entries. -/
def restListBodyOk : JsonVal → Bool
  | .obj fs =>
    (match (List.lookup "results" fs).getD (.arr []) with
     | .arr xs => xs.all restAssocOk
     | _ => false)
  | _ => false

/-- Well-shapedness of the whole REST environment: every endpoint may
answer any status, but every success body has the documented shape. -/
def RestWorldOk (w : World) : Prop :=
  respBodyOk restListBodyOk w.dealsResp = true ∧
  ∀ i, respBodyOk restRecordOk (w.dealResp i) = true ∧
       respBodyOk restListBodyOk (w.dealLineItemsResp i) = true ∧
       respBodyOk restRecordOk (w.lineItemResp i) = true

/-- A sequential loop whose every iteration succeeds succeeds. -/
theorem eachM_ok {α β : Type} (f : α → Except PyErr β) :
    ∀ (xs : List α), (∀ x ∈ xs, ∃ y, f x = .ok y) →
      ∃ ys, eachM f xs = .ok ys
  | [], _ => ⟨[], rfl⟩
  | x :: xs, h => by
    obtain ⟨y, hy⟩ := h x (List.mem_cons_self x xs)
    obtain ⟨ys, hys⟩ :=
      eachM_ok f xs (fun z hz => h z (List.mem_cons_of_mem x hz))
    exact ⟨y :: ys, by unfold eachM; rw [hy, bind_ok_eq, hys, bind_ok_eq]⟩

/-- A well-shaped GraphQL line-item node normalizes without raising. -/
theorem graphqlLineItemRecord_ok (dn li : JsonVal)
    (h : gqlLineItemOk li = true) :
    ∃ r, graphqlLineItemRecord dn li = .ok r := by
  cases li <;> simp [gqlLineItemOk] at h
  case obj fs =>
  cases hv : (List.lookup "properties" fs).getD (JsonVal.obj []) <;>
    rw [hv] at h <;> simp [isObjB] at h
  case obj pfs =>
  exact ⟨⟨dn, (List.lookup "name" pfs).getD (JsonVal.str "Unknown Item"),
          (List.lookup "quantity" pfs).getD (JsonVal.num 0),
          (List.lookup "price" pfs).getD (JsonVal.num 0),
          (List.lookup "amount" pfs).getD (JsonVal.num 0)⟩, by
    unfold graphqlLineItemRecord
    simp only [pyGet, hv, bind_ok_eq]⟩

/-- A well-shaped GraphQL deal node is traversed without raising. -/
theorem graphqlDealItems_ok (deal : JsonVal) (h : gqlDealOk deal = true) :
    ∃ items, graphqlDealItems deal = .ok items := by
  cases deal <;> simp [gqlDealOk] at h
  case obj fs =>
  obtain ⟨h1, h2⟩ := h
  cases hp : (List.lookup "properties" fs).getD (JsonVal.obj []) <;>
    rw [hp] at h1 <;> simp [isObjB] at h1
  case obj pfs =>
  cases ha : (List.lookup "associations" fs).getD (JsonVal.obj []) <;>
    rw [ha] at h2 <;> simp at h2
  case obj afs =>
  cases hl : (List.lookup "lineItems" afs).getD (JsonVal.obj []) <;>
    rw [hl] at h2 <;> simp at h2
  case obj lfs =>
  cases hi : (List.lookup "items" lfs).getD (JsonVal.arr []) <;>
    rw [hi] at h2 <;> simp at h2
  case arr lis =>
  obtain ⟨items, hitems⟩ := eachM_ok
    (graphqlLineItemRecord
      ((List.lookup "dealname" pfs).getD (JsonVal.str "Unknown Deal"))) lis
    (fun x hx => graphqlLineItemRecord_ok _ x (h2 x hx))
  refine ⟨items, ?_⟩
  unfold graphqlDealItems
  simp only [pyGet, hp, bind_ok_eq, ha, hl, hi, pyIter, hitems]

/-- A well-shaped GraphQL response is handled without raising: it yields
the sentinel or a conclusive list. -/
theorem gql_ok (resp : HttpResponse) (h : respBodyOk gqlBodyOk resp = true) :
    ∃ o, get_company_line_items_graphql resp = .ok o := by
  by_cases hs : resp.status = 200
  · unfold respBodyOk at h
    rw [if_neg (by simp [hs])] at h
    cases hj : resp.json with
    | none => rw [hj] at h; simp at h
    | some body =>
      rw [hj] at h
      cases body <;> simp [gqlBodyOk] at h
      next fs =>
      unfold get_company_line_items_graphql
      rw [if_neg (by simp [hs])]
      simp only [respJson, hj, bind_ok_eq, pyIn]
      cases he : (List.lookup "errors" fs).isSome with
      | true => exact ⟨none, rfl⟩
      | false =>
        simp only [Bool.false_eq_true, if_false]
        cases hd : (List.lookup "data" fs).getD (JsonVal.obj []) <;>
          rw [hd] at h <;> simp at h
        next d1 =>
        cases hc : (List.lookup "CRM" d1).getD (JsonVal.obj []) <;>
          rw [hc] at h <;> simp at h
        next d2 =>
        cases hco : (List.lookup "company" d2).getD (JsonVal.obj []) <;>
          rw [hco] at h <;> simp at h
        next cfs =>
        cases hba : (List.lookup "associations" cfs).getD (JsonVal.obj []) <;>
          rw [hba] at h <;> simp at h
        next afs =>
        cases hbd : (List.lookup "deals" afs).getD (JsonVal.obj []) <;>
          rw [hbd] at h <;> simp at h
        next dfs =>
        cases hbi : (List.lookup "items" dfs).getD (JsonVal.arr []) <;>
          rw [hbi] at h <;> simp at h
        next ds =>
        obtain ⟨lists, hlists⟩ := eachM_ok graphqlDealItems ds
          (fun x hx => graphqlDealItems_ok x (h x hx))
        refine ⟨some lists.flatten, ?_⟩
        simp only [pyGet, hd, bind_ok_eq, hc, hco, hba, hbd, hbi, pyIter,
          hlists]
  · exact ⟨none, by
      unfold get_company_line_items_graphql
      rw [if_pos (by simp [hs])]⟩

/-- A well-shaped line-item association node is handled without raising:
either skipped or normalized into one record. -/
theorem restLineItemNode_ok (w : World) (dn a : JsonVal)
    (hw : ∀ i, respBodyOk restRecordOk (w.lineItemResp i) = true)
    (ha : restAssocOk a = true) :
    ∃ r, restLineItemNode w dn a = .ok r := by
  cases a <;> simp only [restAssocOk] at ha <;>
    try exact absurd ha (by decide)
  next fs =>
  obtain ⟨i, hi⟩ := Option.isSome_iff_exists.mp ha
  have hid : pyIndex (JsonVal.obj fs) "id" = .ok i := by simp [pyIndex, hi]
  by_cases hst : (w.lineItemResp i).status = 200
  · have hb := hw i
    unfold respBodyOk at hb
    rw [if_neg (by simp [hst])] at hb
    cases hj : (w.lineItemResp i).json with
    | none => rw [hj] at hb; simp at hb
    | some b =>
      rw [hj] at hb
      cases b <;> simp [restRecordOk] at hb
      next bfs =>
      cases hp : (List.lookup "properties" bfs).getD (JsonVal.obj []) <;>
        rw [hp] at hb <;> simp [isObjB] at hb
      next pfs =>
      refine ⟨[⟨dn,
        (List.lookup "name" pfs).getD (JsonVal.str "Unknown Item"),
        (List.lookup "quantity" pfs).getD (JsonVal.num 0),
        (List.lookup "price" pfs).getD (JsonVal.num 0),
        (List.lookup "amount" pfs).getD (JsonVal.num 0)⟩], ?_⟩
      unfold restLineItemNode restLineItemRecord
      rw [hid, bind_ok_eq, if_neg (by simp [hst])]
      simp only [respJson, hj, bind_ok_eq, pyGet, hp]
  · refine ⟨[], ?_⟩
    unfold restLineItemNode
    rw [hid, bind_ok_eq, if_pos hst]

/-- A well-shaped deal association node is handled without raising:
skipped on any per-deal failure, traversed otherwise. -/
theorem restDealItems_ok (w : World) (a : JsonVal)
    (hw1 : ∀ i, respBodyOk restRecordOk (w.dealResp i) = true)
    (hw2 : ∀ i, respBodyOk restListBodyOk (w.dealLineItemsResp i) = true)
    (hw3 : ∀ i, respBodyOk restRecordOk (w.lineItemResp i) = true)
    (ha : restAssocOk a = true) :
    ∃ r, restDealItems w a = .ok r := by
  cases a <;> simp only [restAssocOk] at ha <;>
    try exact absurd ha (by decide)
  next fs =>
  obtain ⟨i, hi⟩ := Option.isSome_iff_exists.mp ha
  have hid : pyIndex (JsonVal.obj fs) "id" = .ok i := by simp [pyIndex, hi]
  by_cases hst : (w.dealResp i).status = 200
  · have hb := hw1 i
    unfold respBodyOk at hb
    rw [if_neg (by simp [hst])] at hb
    cases hj : (w.dealResp i).json with
    | none => rw [hj] at hb; simp at hb
    | some b =>
      rw [hj] at hb
      cases b <;> simp [restRecordOk] at hb
      next bfs =>
      cases hp : (List.lookup "properties" bfs).getD (JsonVal.obj []) <;>
        rw [hp] at hb <;> simp [isObjB] at hb
      next pfs =>
      by_cases hst2 : (w.dealLineItemsResp i).status = 200
      · have hc := hw2 i
        unfold respBodyOk at hc
        rw [if_neg (by simp [hst2])] at hc
        cases hj2 : (w.dealLineItemsResp i).json with
        | none => rw [hj2] at hc; simp at hc
        | some c =>
          rw [hj2] at hc
          cases c <;> simp [restListBodyOk] at hc
          next cfs =>
          cases hr : (List.lookup "results" cfs).getD (JsonVal.arr []) <;>
            rw [hr] at hc <;> simp at hc
          next xs =>
          obtain ⟨lists, hlists⟩ := eachM_ok
            (restLineItemNode w
              ((List.lookup "dealname" pfs).getD (JsonVal.str "Unknown Deal")))
            xs (fun x hx => restLineItemNode_ok w _ x hw3 (hc x hx))
          refine ⟨lists.flatten, ?_⟩
          unfold restDealItems
          rw [hid, bind_ok_eq, if_neg (by simp [hst])]
          simp only [respJson, hj, bind_ok_eq, pyGet, hp]
          rw [if_neg (by simp [hst2])]
          simp only [respJson, hj2, bind_ok_eq, pyGet, hr, pyIter, hlists]
      · refine ⟨[], ?_⟩
        unfold restDealItems
        rw [hid, bind_ok_eq, if_neg (by simp [hst])]
        simp only [respJson, hj, bind_ok_eq, pyGet, hp]
        rw [if_pos hst2]
  · refine ⟨[], ?_⟩
    unfold restDealItems
    rw [hid, bind_ok_eq, if_pos hst]

/-- A well-shaped REST environment is traversed without raising. -/
theorem rest_ok (w : World) (hw : RestWorldOk w) :
    ∃ items, get_company_line_items_rest w = .ok items := by
  obtain ⟨hw0, hwAll⟩ := hw
  by_cases hst : w.dealsResp.status = 200
  · unfold respBodyOk at hw0
    rw [if_neg (by simp [hst])] at hw0
    cases hj : w.dealsResp.json with
    | none => rw [hj] at hw0; simp at hw0
    | some b =>
      rw [hj] at hw0
      cases b <;> simp [restListBodyOk] at hw0
      next bfs =>
      cases hr : (List.lookup "results" bfs).getD (JsonVal.arr []) <;>
        rw [hr] at hw0 <;> simp at hw0
      next ds =>
      obtain ⟨lists, hlists⟩ := eachM_ok (restDealItems w) ds
        (fun x hx => restDealItems_ok w x (fun i => (hwAll i).1)
          (fun i => (hwAll i).2.1) (fun i => (hwAll i).2.2) (hw0 x hx))
      refine ⟨lists.flatten, ?_⟩
      unfold get_company_line_items_rest
      rw [if_neg (by simp [hst])]
      simp only [respJson, hj, bind_ok_eq, pyGet, hr, pyIter, hlists]
  · refine ⟨[], ?_⟩
    unfold get_company_line_items_rest
    rw [if_pos (by simp [hst])]

/-- A well-shaped token record for the C8 counterexample store. -/
def storageTok : Storage := storageSet emptyStorage "42" tdFresh

/-- A world whose GraphQL success body is malformed: the "data" value is
the number 5, so the traversal's `.get` chain is applied to a non-dict. -/
def wBad : World :=
  { wIdle with graphqlResp := ⟨200, some (.obj [("data", .num 5)])⟩ }

/-- C8 counterexample: the fetch layer is not total.  A success-status
GraphQL response whose body is malformed (`{"data": 5}`) makes the fetch
raise (Python AttributeError), and the route surfaces that to its caller
as a 500 error response — not a (possibly empty) sequence of records. -/
theorem fetch_malformed_body_error_cex :
    fetchLineItems wBad = .error PyErr.attributeError ∧
    get_company_line_items wBad respFail 0 storageTok (some "42") "7"
      = .ok ⟨storageTok, 500, .errMsg "Failed to fetch line items"⟩ := by
  constructor <;> rfl

/-- C8 (amended): the fetch layer is total on every combination of
upstream HTTP statuses provided that each success body is well-shaped (it
parses, and every container the code traverses is an object, the item
lists lists): under that restriction it always returns a — possibly
empty — sequence of records, absorbing all HTTP-level failures; a
malformed success body, however, raises, and the route maps that to a 500
error response. -/
theorem fetch_total_on_wellformed (w : World)
    (hg : respBodyOk gqlBodyOk w.graphqlResp = true) (hr : RestWorldOk w) :
    ∃ items, fetchLineItems w = .ok items := by
  obtain ⟨o, ho⟩ := gql_ok w.graphqlResp hg
  cases o with
  | some items =>
    exact ⟨items, by unfold fetchLineItems; rw [ho, bind_ok_eq]⟩
  | none =>
    obtain ⟨items, hitems⟩ := rest_ok w hr
    exact ⟨items, by unfold fetchLineItems; rw [ho, bind_ok_eq]; exact hitems⟩

/-- Witness for C8 (amended): a world whose every endpoint fails is
well-shaped, and the fetch succeeds on it. -/
theorem fetch_total_on_wellformed_witness :
    ∃ items, fetchLineItems wIdle = .ok items :=
  fetch_total_on_wellformed wIdle rfl ⟨rfl, fun _ => ⟨rfl, rfl, rfl⟩⟩
